import Mathlib

/-!
Verification of the authentication / authorization core of the
fastapi-clean-architecture repository, as a shallow embedding in Lean 4.

The database session is modelled as an explicit store value (`DB`) threaded
through the operations; `HTTPException` raise sites become `Except ApiError`
results, one `ApiError` constructor per distinct raise site. Mutating service
operations return the result together with the store after the call, so that
"no write happened" is the statement that the returned store equals the input
store. SQLAlchemy `scalar_one_or_none()` / `first()` row lookups become
`List.find?` over the store's rows.
-/

namespace FastapiClean

/-- Principal row of the `users` table. `app/models/user.py` is not present under
src/; the fields are fixed by the constructor call in
`repositories/auth.py` (`User(email=..., username=..., full_name=...,
hashed_password=..., is_active=..., is_superuser=...)`), by `schemas/user.py`
(`UserInDB`) and by every access site in the services. -/
structure User where
  id : Nat
  email : String
  username : String
  full_name : Option String
  hashed_password : String
  is_active : Bool
  is_superuser : Bool
  deriving Repr, DecidableEq

/-- Item row of the `items` table, from `app/models/item.py`. -/
structure Item where
  id : Nat
  title : String
  description : Option String
  is_active : Bool
  owner_id : Nat
  deriving Repr, DecidableEq

/-- The shared data store: the `users` and `items` tables. -/
structure DB where
  users : List User
  items : List Item
  deriving Repr, DecidableEq

/-- Error outcomes. Each constructor corresponds to one `HTTPException` /
`CustomHTTPException` raise site of the services and dependency guards:
`invalidCredentials` = 401 "Invalid username or password" and 401
"Could not validate credentials"; `accountDisabled` = 401 "Account is
disabled"; `inactiveUser` = 403 "Inactive user" (`get_current_active_user`);
`insufficientPermissions` = 403 "Not enough permissions"; `duplicateEmail` /
`duplicateUsername` = 409 conflicts; `notFound` = 404; `cannotDeleteSelf` =
400 "Cannot delete your own account". -/
inductive ApiError where
  | invalidCredentials
  | accountDisabled
  | inactiveUser
  | insufficientPermissions
  | duplicateEmail
  | duplicateUsername
  | notFound
  | cannotDeleteSelf
  deriving Repr, DecidableEq

/-- `select(User).where(User.username == username)` + `scalar_one_or_none()`
(`repositories/auth.py get_user_by_username`, `repositories/user.py
get_by_username`, `core/deps.py get_current_user`). -/
def getUserByUsername (db : DB) (username : String) : Option User :=
  db.users.find? (fun u => u.username == username)

/-- `select(User).where(User.email == email)` + `scalar_one_or_none()`. -/
def getUserByEmail (db : DB) (email : String) : Option User :=
  db.users.find? (fun u => u.email == email)

/-- `BaseRepository.get` specialised to `User`: select by primary key. -/
def getUserById (db : DB) (id : Nat) : Option User :=
  db.users.find? (fun u => u.id == id)

/-- `BaseRepository.get` specialised to `Item`: select by primary key. Also the
behaviour of `ItemRepository.get_with_owner` on the fields modelled here
(the joinedload only adds the owner relationship). -/
def getItemById (db : DB) (id : Nat) : Option Item :=
  db.items.find? (fun i => i.id == id)

/-- `schemas/auth.py LoginRequest`. -/
structure LoginRequest where
  username : String
  password : String
  deriving Repr, DecidableEq

/-- `schemas/auth.py Token`: the login response. -/
structure TokenOut where
  access_token : String
  token_type : String
  deriving Repr, DecidableEq

/-- `schemas/user.py UserCreate`: the registration payload. It has no
`is_superuser` or `is_active` field at all. -/
structure UserCreate where
  email : String
  username : String
  full_name : Option String
  password : String
  deriving Repr, DecidableEq

/-- `AuthService.login` (`services/auth.py`). The password hasher and token
codec live in `core/security.py`, which is not under src/; per the spec they
are `verify(plaintext, digest) -> bool` and `issue(subject, ttl) -> token`,
so they are taken here as function parameters `verify_password` and
`create_access_token`. -/
def AuthService.login (verify_password : String → String → Bool)
    (create_access_token : String → String)
    (db : DB) (login_data : LoginRequest) : Except ApiError TokenOut :=
  match getUserByUsername db login_data.username with
  | none => .error .invalidCredentials
  | some user =>
    if !verify_password login_data.password user.hashed_password then
      .error .invalidCredentials
    else if !user.is_active then
      .error .accountDisabled
    else
      .ok { access_token := create_access_token user.username, token_type := "bearer" }

/-- `AuthRepository.create_user_with_hashed_password` (`repositories/auth.py`):
builds the row with `is_active=True, is_superuser=False` hard-coded, adds and
commits it. `new_id` stands for the primary key the store assigns. -/
def create_user_with_hashed_password (db : DB) (user_data : UserCreate)
    (hashed_password : String) (new_id : Nat) : User × DB :=
  let db_user : User :=
    { id := new_id
      email := user_data.email
      username := user_data.username
      full_name := user_data.full_name
      hashed_password := hashed_password
      is_active := true
      is_superuser := false }
  (db_user, { db with users := db.users ++ [db_user] })

/-- `AuthService.register` (`services/auth.py`): email-uniqueness check, then
username-uniqueness check, then create. `get_password_hash` is the missing
`core/security.py` hasher, taken as a parameter. The second component of the
result is the store after the call. -/
def AuthService.register (get_password_hash : String → String)
    (db : DB) (user_data : UserCreate) (new_id : Nat) :
    Except ApiError User × DB :=
  if (getUserByEmail db user_data.email).isSome then
    (.error .duplicateEmail, db)
  else if (getUserByUsername db user_data.username).isSome then
    (.error .duplicateUsername, db)
  else
    let hashed_password := get_password_hash user_data.password
    let (db_user, db') := create_user_with_hashed_password db user_data hashed_password new_id
    (.ok db_user, db')

/-- `schemas/user.py UserUpdate`: every field optional. `none` models a field
absent from the payload (pydantic `exclude_unset=True` drops it); `some v`
models a field present with value `v`. -/
structure UserUpdate where
  email : Option String := none
  username : Option String := none
  full_name : Option String := none
  is_active : Option Bool := none
  is_superuser : Option Bool := none
  deriving Repr, DecidableEq

/-- `BaseRepository.update` field application for a `User` row: for each field
present in `obj_in.dict(exclude_unset=True)`, `setattr(db_obj, field, value)`.
Every `UserUpdate` field exists on the `User` model, so each present field is
applied — including `is_active` and `is_superuser`. -/
def applyUserUpdate (db_obj : User) (obj_in : UserUpdate) : User :=
  { db_obj with
    email := obj_in.email.getD db_obj.email
    username := obj_in.username.getD db_obj.username
    full_name := match obj_in.full_name with
      | some v => some v
      | none => db_obj.full_name
    is_active := obj_in.is_active.getD db_obj.is_active
    is_superuser := obj_in.is_superuser.getD db_obj.is_superuser }

/-- Committing a mutated `User` row: the row with the same primary key is
replaced in the store. -/
def DB.commitUser (db : DB) (u : User) : DB :=
  { db with users := db.users.map (fun v => if v.id == u.id then u else v) }

/-- `UsersService.get_user_by_id` (`services/users.py`): permission check
(self or superuser) first, then the primary-key lookup, 404 when absent. -/
def UsersService.get_user_by_id (db : DB) (user_id : Nat) (current_user : User) :
    Except ApiError User :=
  if user_id != current_user.id && !current_user.is_superuser then
    .error .insufficientPermissions
  else
    match getUserById db user_id with
    | none => .error .notFound
    | some user => .ok user

/-- `UsersService.update_user` (`services/users.py`): permission check (self or
superuser), then lookup, then `BaseRepository.update` applying every field
present in the payload. Second component of the result is the store after the
call. -/
def UsersService.update_user (db : DB) (user_id : Nat) (user_data : UserUpdate)
    (current_user : User) : Except ApiError User × DB :=
  if user_id != current_user.id && !current_user.is_superuser then
    (.error .insufficientPermissions, db)
  else
    match getUserById db user_id with
    | none => (.error .notFound, db)
    | some user =>
      let user' := applyUserUpdate user user_data
      (.ok user', db.commitUser user')

/-- `UsersService.delete_user` (`services/users.py`): superuser check first,
then the self-delete guard (400), then `BaseRepository.delete` by primary key,
404 when the row is absent. -/
def UsersService.delete_user (db : DB) (user_id : Nat) (current_user : User) :
    Except ApiError String × DB :=
  if !current_user.is_superuser then
    (.error .insufficientPermissions, db)
  else if user_id == current_user.id then
    (.error .cannotDeleteSelf, db)
  else
    match getUserById db user_id with
    | none => (.error .notFound, db)
    | some _ =>
      (.ok "User deleted successfully",
        { db with users := db.users.eraseP (fun v => v.id == user_id) })

/-- `schemas/item.py ItemUpdate`: every field optional, `none` = absent. -/
structure ItemUpdate where
  title : Option String := none
  description : Option String := none
  is_active : Option Bool := none
  deriving Repr, DecidableEq

/-- `BaseRepository.update` field application for an `Item` row. -/
def applyItemUpdate (db_obj : Item) (obj_in : ItemUpdate) : Item :=
  { db_obj with
    title := obj_in.title.getD db_obj.title
    description := match obj_in.description with
      | some v => some v
      | none => db_obj.description
    is_active := obj_in.is_active.getD db_obj.is_active }

/-- `ItemsService.get_item_by_id` (`services/items.py`): lookup, 404 when
absent. Takes no acting principal: the service does no permission check. -/
def ItemsService.get_item_by_id (db : DB) (item_id : Nat) : Except ApiError Item :=
  match getItemById db item_id with
  | none => .error .notFound
  | some item => .ok item

/-- `ItemsService.update_item` (`services/items.py`, identical logic in
`controllers/items.py ItemsController.update_item`): lookup first (404),
then owner-or-superuser check (403), then apply the present fields and
commit. -/
def ItemsService.update_item (db : DB) (item_id : Nat) (item_data : ItemUpdate)
    (current_user : User) : Except ApiError Item × DB :=
  match getItemById db item_id with
  | none => (.error .notFound, db)
  | some item =>
    if item.owner_id != current_user.id && !current_user.is_superuser then
      (.error .insufficientPermissions, db)
    else
      let item' := applyItemUpdate item item_data
      (.ok item',
        { db with items := db.items.map (fun v => if v.id == item'.id then item' else v) })

/-- `ItemsService.delete_item` (`services/items.py`, identical logic in
`controllers/items.py ItemsController.delete_item`): lookup first (404), then
owner-or-superuser check (403), then delete by primary key. -/
def ItemsService.delete_item (db : DB) (item_id : Nat) (current_user : User) :
    Except ApiError Unit × DB :=
  match getItemById db item_id with
  | none => (.error .notFound, db)
  | some item =>
    if item.owner_id != current_user.id && !current_user.is_superuser then
      (.error .insufficientPermissions, db)
    else
      (.ok (), { db with items := db.items.eraseP (fun v => v.id == item_id) })

/-- Modelled from the spec: the Token Codec of `core/security.py` is not under
src/. A bearer token carries a subject, an issued-at and an expiry timestamp,
signed with a server secret; `payload_decodes` models whether the compact
encoding parses, `signature_valid` whether the signature verifies under the
server secret. -/
structure BearerToken where
  sub : String
  iat : Int
  exp : Int
  payload_decodes : Bool
  signature_valid : Bool
  deriving Repr, DecidableEq

/-- Modelled from the spec: `verify_token` of the missing `core/security.py`.
"verify fails closed: malformed signature, tampered payload, or expiry in the
past all yield a single invalid outcome" — the token yields its subject only
when it decodes, the signature verifies, and the expiry is still in the
future; otherwise the one invalid outcome `none`. -/
def verify_token (now : Int) (token : BearerToken) : Option String :=
  if token.payload_decodes && token.signature_valid && decide (now < token.exp) then
    some token.sub
  else
    none

/-- `get_current_user` (`core/deps.py`): `verify_token` on the bearer
credential; `none` fails with the 401 credentials exception, then the subject
is looked up by username and a missing principal fails with the same 401. -/
def get_current_user (db : DB) (now : Int) (token : BearerToken) : Except ApiError User :=
  match verify_token now token with
  | none => .error .invalidCredentials
  | some username =>
    match getUserByUsername db username with
    | none => .error .invalidCredentials
    | some user => .ok user

/-- `get_current_active_user` (`core/deps.py`): rejects inactive principals
with 403 "Inactive user". -/
def get_current_active_user (db : DB) (now : Int) (token : BearerToken) :
    Except ApiError User :=
  match get_current_user db now token with
  | .error e => .error e
  | .ok user => if !user.is_active then .error .inactiveUser else .ok user

/-- `read_item` route (`routers/items.py`, GET /items/:item_id): its
parameters are `item_id`, `db` and `logger` only — it declares no
`current_user` dependency, so the bearer credential of the request (modelled
as `credential`, `none` for an unauthenticated request) is never consulted;
the handler directly returns the item lookup. -/
def read_item_route (db : DB) (now : Int) (credential : Option BearerToken)
    (item_id : Nat) : Except ApiError Item :=
  let _ := credential
  let _ := now
  ItemsService.get_item_by_id db item_id

/-- The read-item route as the spec's access-control table describes it
("Read item: any active principal"): written from the spec's words, for
comparison with `read_item_route`. It authenticates the bearer credential
through the active-principal guard before the lookup. -/
def read_item_route_specified (db : DB) (now : Int) (credential : Option BearerToken)
    (item_id : Nat) : Except ApiError Item :=
  match credential with
  | none => .error .invalidCredentials
  | some token =>
    match get_current_active_user db now token with
    | .error e => .error e
    | .ok _ => ItemsService.get_item_by_id db item_id

/-- Shared concrete fixtures for witnesses: a regular user, a second regular
user, an admin, and an item owned by the first user. -/
def alice : User :=
  { id := 1, email := "a@x.com", username := "alice", full_name := none
    hashed_password := "pw123456", is_active := true, is_superuser := false }

def bob : User :=
  { id := 2, email := "b@x.com", username := "bob", full_name := none
    hashed_password := "pw223456", is_active := true, is_superuser := false }

def carolAdmin : User :=
  { id := 3, email := "c@x.com", username := "carol", full_name := none
    hashed_password := "pw323456", is_active := true, is_superuser := true }

def disabledDave : User :=
  { id := 4, email := "d@x.com", username := "dave", full_name := none
    hashed_password := "pw423456", is_active := false, is_superuser := false }

def book : Item :=
  { id := 10, title := "book", description := none, is_active := true, owner_id := 1 }

def sampleDB : DB :=
  { users := [alice, bob, carolAdmin, disabledDave], items := [book] }

end FastapiClean

namespace FastapiClean

/-- C1: For every registration input accepted by the register operation, the
created principal has admin=false (is_superuser=false) and active=true
(is_active=true): no field of the registration payload can produce a principal
with admin=true, regardless of the payload's contents. -/
theorem C1_register_never_grants_admin
    (get_password_hash : String → String) (db : DB) (user_data : UserCreate)
    (new_id : Nat) (created : User) (db' : DB)
    (h : AuthService.register get_password_hash db user_data new_id = (.ok created, db')) :
    created.is_superuser = false ∧ created.is_active = true := by
  unfold AuthService.register create_user_with_hashed_password at h
  split at h
  · simp_all
  · split at h
    · simp_all
    · simp only [Prod.mk.injEq, Except.ok.injEq] at h
      obtain ⟨h1, _⟩ := h
      subst h1
      exact ⟨rfl, rfl⟩

/-- Witness for C1 at a concrete registration. -/
theorem C1_register_never_grants_admin_witness :
    (let reg := AuthService.register (fun p => p) ⟨[], []⟩
        ⟨"a@x.com", "alice", none, "pw123456"⟩ 1
     ∃ created db', reg = (.ok created, db') ∧
       created.is_superuser = false ∧ created.is_active = true) := by
  refine ⟨⟨1, "a@x.com", "alice", none, "pw123456", true, false⟩,
    ⟨[⟨1, "a@x.com", "alice", none, "pw123456", true, false⟩], []⟩, ?_, ?_⟩
  · rfl
  · exact C1_register_never_grants_admin (fun p => p) ⟨[], []⟩
      ⟨"a@x.com", "alice", none, "pw123456"⟩ 1 _ _ rfl

/-- Helper: committing a mutated row whose primary key is the one the lookup
found replaces exactly the found row in the by-key lookup. -/
theorem find?_commit (l : List User) (i : Nat) (P u' : User)
    (h : l.find? (fun v => v.id == i) = some P) (hid : u'.id = i) :
    (l.map (fun v => if v.id == u'.id then u' else v)).find? (fun v => v.id == i)
      = some u' := by
  subst hid
  induction l with
  | nil => simp at h
  | cons a as ih =>
    rw [List.map_cons]
    cases ha : (a.id == u'.id) with
    | true => simp [List.find?]
    | false =>
      simp only [List.find?, ha] at h
      simpa [List.find?, ha] using ih h

/-- C2: For every active non-admin principal P and every update payload U with
is_superuser present and true, update_user(P.id, U, P) succeeds and persists
is_superuser=true on P: the self-update path applies every field present in
the payload, including is_superuser and is_active, with no restriction on
which fields a non-admin self-update may change. -/
theorem C2_self_update_grants_admin (db : DB) (P : User) (U : UserUpdate)
    (hP : getUserById db P.id = some P)
    (_hactive : P.is_active = true)
    (_hnonadmin : P.is_superuser = false)
    (hU : U.is_superuser = some true) :
    ∃ P' db', UsersService.update_user db P.id U P = (.ok P', db') ∧
      P'.is_superuser = true ∧ getUserById db' P.id = some P' := by
  refine ⟨applyUserUpdate P U, DB.commitUser db (applyUserUpdate P U), ?_, ?_, ?_⟩
  · unfold UsersService.update_user
    rw [bne_self_eq_false]
    simp [hP]
  · simp [applyUserUpdate, hU]
  · unfold getUserById at hP ⊢
    unfold DB.commitUser
    exact find?_commit db.users P.id P (applyUserUpdate P U) hP rfl

/-- Witness for C2: alice (active, non-admin) self-updates with a payload whose
only present field is is_superuser=true, and the store afterwards records her
as a superuser. -/
theorem C2_self_update_grants_admin_witness :
    ∃ P' db', UsersService.update_user sampleDB alice.id
        ⟨none, none, none, none, some true⟩ alice = (.ok P', db') ∧
      P'.is_superuser = true ∧ getUserById db' alice.id = some P' :=
  C2_self_update_grants_admin sampleDB alice ⟨none, none, none, none, some true⟩
    rfl rfl rfl rfl

/-- C3: For every existing item X and every principal P, update_item and
delete_item on X succeed when P is X's owner or P is an admin (an admin
succeeds regardless of ownership), and fail with InsufficientPermissions,
leaving the store unchanged, when P is neither. -/
theorem C3_item_mutation_owner_or_admin (db : DB) (X : Item) (P : User) (U : ItemUpdate)
    (hX : getItemById db X.id = some X) :
    ((X.owner_id = P.id ∨ P.is_superuser = true) →
      (ItemsService.update_item db X.id U P).1 = .ok (applyItemUpdate X U) ∧
      (ItemsService.delete_item db X.id P).1 = .ok ()) ∧
    (X.owner_id ≠ P.id → P.is_superuser = false →
      ItemsService.update_item db X.id U P = (.error .insufficientPermissions, db) ∧
      ItemsService.delete_item db X.id P = (.error .insufficientPermissions, db)) := by
  constructor
  · intro hok
    have hcond : (X.owner_id != P.id && !P.is_superuser) = false := by
      rcases hok with h | h <;> simp [h]
    constructor <;> simp [ItemsService.update_item, ItemsService.delete_item, hX, hcond]
  · intro hne hns
    have hcond : (X.owner_id != P.id && !P.is_superuser) = true := by simp [hne, hns]
    constructor <;> simp [ItemsService.update_item, ItemsService.delete_item, hX, hcond]

/-- Witness for C3: owner alice and admin carol succeed on alice's item; bob,
neither owner nor admin, is denied with InsufficientPermissions on both
update and delete, the store unchanged. -/
theorem C3_item_mutation_owner_or_admin_witness :
    (ItemsService.update_item sampleDB book.id ⟨none, none, none⟩ alice).1
        = .ok (applyItemUpdate book ⟨none, none, none⟩) ∧
    (ItemsService.delete_item sampleDB book.id carolAdmin).1 = .ok () ∧
    ItemsService.update_item sampleDB book.id ⟨none, none, none⟩ bob
        = (.error .insufficientPermissions, sampleDB) ∧
    ItemsService.delete_item sampleDB book.id bob
        = (.error .insufficientPermissions, sampleDB) := by
  have howner := (C3_item_mutation_owner_or_admin sampleDB book alice
    ⟨none, none, none⟩ rfl).1 (Or.inl rfl)
  have hadmin := (C3_item_mutation_owner_or_admin sampleDB book carolAdmin
    ⟨none, none, none⟩ rfl).1 (Or.inr rfl)
  have hdenied := (C3_item_mutation_owner_or_admin sampleDB book bob
    ⟨none, none, none⟩ rfl).2 (by decide) rfl
  exact ⟨howner.1, hadmin.2, hdenied.1, hdenied.2⟩

/-- C4: Login outcomes: an unknown username and a wrong password for an
existing username yield the same InvalidCredentials failure; AccountDisabled
arises exactly when the username exists, the password verifies, and
active=false — a disabled account with a wrong password yields
InvalidCredentials, not AccountDisabled; a verified active account gets
a bearer token. -/
theorem C4_login_outcomes (verify_password : String → String → Bool)
    (create_access_token : String → String) (db : DB) (login_data : LoginRequest) :
    (getUserByUsername db login_data.username = none →
      AuthService.login verify_password create_access_token db login_data
        = .error .invalidCredentials) ∧
    (∀ u, getUserByUsername db login_data.username = some u →
      verify_password login_data.password u.hashed_password = false →
      AuthService.login verify_password create_access_token db login_data
        = .error .invalidCredentials) ∧
    (∀ u, getUserByUsername db login_data.username = some u →
      verify_password login_data.password u.hashed_password = true →
      u.is_active = false →
      AuthService.login verify_password create_access_token db login_data
        = .error .accountDisabled) ∧
    (∀ u, getUserByUsername db login_data.username = some u →
      verify_password login_data.password u.hashed_password = true →
      u.is_active = true →
      AuthService.login verify_password create_access_token db login_data
        = .ok { access_token := create_access_token u.username, token_type := "bearer" }) := by
  refine ⟨fun h => ?_, fun u hu hv => ?_, fun u hu hv ha => ?_, fun u hu hv ha => ?_⟩
  · simp [AuthService.login, h]
  · simp [AuthService.login, hu, hv]
  · simp [AuthService.login, hu, hv, ha]
  · simp [AuthService.login, hu, hv, ha]

/-- Witness for C4: with string-equality standing in for hash verification,
an unknown username, a wrong password for disabled dave, a wrong password for
active alice (all InvalidCredentials), and the right password for disabled
dave (AccountDisabled). -/
theorem C4_login_outcomes_witness :
    AuthService.login (fun p h => p == h) (fun s => s) sampleDB ⟨"nobody", "x"⟩
        = .error .invalidCredentials ∧
    AuthService.login (fun p h => p == h) (fun s => s) sampleDB ⟨"dave", "wrong"⟩
        = .error .invalidCredentials ∧
    AuthService.login (fun p h => p == h) (fun s => s) sampleDB ⟨"alice", "wrong"⟩
        = .error .invalidCredentials ∧
    AuthService.login (fun p h => p == h) (fun s => s) sampleDB ⟨"dave", "pw423456"⟩
        = .error .accountDisabled := by
  refine ⟨?_, ?_, ?_, ?_⟩
  · exact (C4_login_outcomes (fun p h => p == h) (fun s => s) sampleDB
      ⟨"nobody", "x"⟩).1 rfl
  · exact (C4_login_outcomes (fun p h => p == h) (fun s => s) sampleDB
      ⟨"dave", "wrong"⟩).2.1 disabledDave rfl rfl
  · exact (C4_login_outcomes (fun p h => p == h) (fun s => s) sampleDB
      ⟨"alice", "wrong"⟩).2.1 alice rfl rfl
  · exact (C4_login_outcomes (fun p h => p == h) (fun s => s) sampleDB
      ⟨"dave", "pw423456"⟩).2.2.1 disabledDave rfl rfl rfl

/-- C5: Resolving the acting principal from a bearer token fails with
InvalidCredentials on every token whose expiry is in the past, regardless of
signature validity; a tampered payload or an invalid signature yields the
same single outcome. -/
theorem C5_expired_token_invalid (db : DB) (now : Int) (token : BearerToken) :
    (token.exp ≤ now → get_current_user db now token = .error .invalidCredentials) ∧
    (token.payload_decodes = false →
      get_current_user db now token = .error .invalidCredentials) ∧
    (token.signature_valid = false →
      get_current_user db now token = .error .invalidCredentials) := by
  refine ⟨fun h => ?_, fun h => ?_, fun h => ?_⟩
  · have hne : ¬ (now < token.exp) := not_lt.mpr h
    simp [get_current_user, verify_token, hne]
  · simp [get_current_user, verify_token, h]
  · simp [get_current_user, verify_token, h]

/-- Witness for C5: a token for alice with a valid signature and decodable
payload but expiry 5 is rejected at time 10. -/
theorem C5_expired_token_invalid_witness :
    get_current_user sampleDB 10 ⟨"alice", 0, 5, true, true⟩
      = .error .invalidCredentials :=
  (C5_expired_token_invalid sampleDB 10 ⟨"alice", 0, 5, true, true⟩).1 (by decide)

/-- C6: Registration with an email that already belongs to a stored principal
fails with DuplicateEmail before the username check and before any write,
whatever the username; with a fresh email but a colliding username it fails
with DuplicateUsername; in both failure cases the store is returned
unchanged. -/
theorem C6_register_conflict_order (get_password_hash : String → String)
    (db : DB) (user_data : UserCreate) (new_id : Nat) :
    ((getUserByEmail db user_data.email).isSome = true →
      AuthService.register get_password_hash db user_data new_id
        = (.error .duplicateEmail, db)) ∧
    ((getUserByEmail db user_data.email).isSome = false →
      (getUserByUsername db user_data.username).isSome = true →
      AuthService.register get_password_hash db user_data new_id
        = (.error .duplicateUsername, db)) := by
  constructor
  · intro h
    simp [AuthService.register, h]
  · intro h1 h2
    simp [AuthService.register, h1, h2]

/-- Witness for C6: re-registering alice's email with bob's username fails
DuplicateEmail (the email check wins although the username also collides);
a fresh email with bob's username fails DuplicateUsername; both leave the
store unchanged. -/
theorem C6_register_conflict_order_witness :
    AuthService.register (fun p => p) sampleDB
        ⟨"a@x.com", "bob", none, "pw999999"⟩ 9
      = (.error .duplicateEmail, sampleDB) ∧
    AuthService.register (fun p => p) sampleDB
        ⟨"fresh@x.com", "bob", none, "pw999999"⟩ 9
      = (.error .duplicateUsername, sampleDB) := by
  constructor
  · exact (C6_register_conflict_order (fun p => p) sampleDB
      ⟨"a@x.com", "bob", none, "pw999999"⟩ 9).1 rfl
  · exact (C6_register_conflict_order (fun p => p) sampleDB
      ⟨"fresh@x.com", "bob", none, "pw999999"⟩ 9).2 rfl rfl

/-- C7 counterexample: the GET /items/:item_id route declares no
authentication dependency, so an unauthenticated request (no bearer
credential) reads an existing item successfully — while the route as the
spec's table describes it would fail with InvalidCredentials. The claim that
no unauthenticated caller can read an item is therefore false on the code. -/
theorem C7_counterexample :
    read_item_route sampleDB 0 none book.id = .ok book ∧
    read_item_route_specified sampleDB 0 none book.id
      = .error .invalidCredentials := by
  constructor <;> rfl

/-- C7 (amended): reading a single item by id performs no authentication: the
route never consults the request's credential, so every caller —
authenticated or not, active or not — gets the item when it exists and
NotFound otherwise; in particular there is no ownership restriction. -/
theorem C7_read_item_no_auth (db : DB) (now now' : Int)
    (credential credential' : Option BearerToken) (item_id : Nat) :
    read_item_route db now credential item_id
      = read_item_route db now' credential' item_id ∧
    (∀ X, getItemById db item_id = some X →
      read_item_route db now credential item_id = .ok X) ∧
    (getItemById db item_id = none →
      read_item_route db now credential item_id = .error .notFound) := by
  refine ⟨rfl, fun X hX => ?_, fun h => ?_⟩
  · simp [read_item_route, ItemsService.get_item_by_id, hX]
  · simp [read_item_route, ItemsService.get_item_by_id, h]

/-- Witness for C7's amended theorem: an unauthenticated request reads the
concrete stored item. -/
theorem C7_read_item_no_auth_witness :
    read_item_route sampleDB 0 none book.id = .ok book :=
  (C7_read_item_no_auth sampleDB 0 0 none none book.id).2.1 book rfl

/-- C8: An admin deleting their own account fails with the dedicated
cannot-delete-self error (400), distinct from InsufficientPermissions and
from NotFound, and the store is unchanged; a non-admin calling delete_user on
any id fails with InsufficientPermissions, the store unchanged. -/
theorem C8_delete_user_guards (db : DB) (A : User) (user_id : Nat) :
    (A.is_superuser = true →
      UsersService.delete_user db A.id A = (.error .cannotDeleteSelf, db) ∧
      ApiError.cannotDeleteSelf ≠ ApiError.insufficientPermissions ∧
      ApiError.cannotDeleteSelf ≠ ApiError.notFound) ∧
    (A.is_superuser = false →
      UsersService.delete_user db user_id A = (.error .insufficientPermissions, db)) := by
  constructor
  · intro h
    refine ⟨?_, by decide, by decide⟩
    simp [UsersService.delete_user, h]
  · intro h
    simp [UsersService.delete_user, h]

/-- Witness for C8: admin carol cannot delete her own account; non-admin bob
is denied deleting alice. -/
theorem C8_delete_user_guards_witness :
    UsersService.delete_user sampleDB carolAdmin.id carolAdmin
        = (.error .cannotDeleteSelf, sampleDB) ∧
    UsersService.delete_user sampleDB alice.id bob
        = (.error .insufficientPermissions, sampleDB) := by
  constructor
  · exact ((C8_delete_user_guards sampleDB carolAdmin carolAdmin.id).1 rfl).1
  · exact (C8_delete_user_guards sampleDB bob alice.id).2 rfl

/-- C9: For owner-only item mutation, a nonexistent item id yields NotFound
for every caller, owner or not; InsufficientPermissions is only ever raised
for items that exist, because the lookup precedes the ownership check. -/
theorem C9_notfound_before_ownership (db : DB) (item_id : Nat) (U : ItemUpdate)
    (P : User) :
    (getItemById db item_id = none →
      ItemsService.update_item db item_id U P = (.error .notFound, db) ∧
      ItemsService.delete_item db item_id P = (.error .notFound, db)) ∧
    ((ItemsService.update_item db item_id U P).1 = .error .insufficientPermissions →
      ∃ X, getItemById db item_id = some X) ∧
    ((ItemsService.delete_item db item_id P).1 = .error .insufficientPermissions →
      ∃ X, getItemById db item_id = some X) := by
  refine ⟨fun h => ?_, fun h => ?_, fun h => ?_⟩
  · constructor <;> simp [ItemsService.update_item, ItemsService.delete_item, h]
  · cases hX : getItemById db item_id with
    | none => simp [ItemsService.update_item, hX] at h
    | some X => exact ⟨X, rfl⟩
  · cases hX : getItemById db item_id with
    | none => simp [ItemsService.delete_item, hX] at h
    | some X => exact ⟨X, rfl⟩

/-- Witness for C9: item id 999 does not exist; update and delete both yield
NotFound for non-owner bob (and for anyone), the store unchanged. -/
theorem C9_notfound_before_ownership_witness :
    ItemsService.update_item sampleDB 999 ⟨none, none, none⟩ bob
        = (.error .notFound, sampleDB) ∧
    ItemsService.delete_item sampleDB 999 bob = (.error .notFound, sampleDB) :=
  (C9_notfound_before_ownership sampleDB 999 ⟨none, none, none⟩ bob).1 rfl

/-- C10: Reading a user profile by id succeeds only for the same principal or
an admin. A non-admin asking for a different user_id gets
InsufficientPermissions independent of the store: two stores differing only
in the target's existence give the unauthorized requester the same outcome.
An authorized requester (self or admin) gets NotFound when the target is
absent. -/
theorem C10_profile_read_policy (db1 db2 db : DB) (user_id : Nat) (P : User) :
    (user_id ≠ P.id → P.is_superuser = false →
      UsersService.get_user_by_id db1 user_id P = .error .insufficientPermissions ∧
      UsersService.get_user_by_id db1 user_id P
        = UsersService.get_user_by_id db2 user_id P) ∧
    ((user_id = P.id ∨ P.is_superuser = true) → getUserById db user_id = none →
      UsersService.get_user_by_id db user_id P = .error .notFound) := by
  constructor
  · intro hne hns
    have hcond : (user_id != P.id && !P.is_superuser) = true := by simp [hne, hns]
    constructor <;> simp [UsersService.get_user_by_id, hcond]
  · intro hok habs
    have hcond : (user_id != P.id && !P.is_superuser) = false := by
      rcases hok with h | h <;> simp [h]
    simp [UsersService.get_user_by_id, hcond, habs]

/-- Witness for C10: non-admin bob asking for alice's id is denied identically
on the full store and on an empty store (alice absent); admin carol asking
for a missing id 999 gets NotFound. -/
theorem C10_profile_read_policy_witness :
    UsersService.get_user_by_id sampleDB alice.id bob
        = .error .insufficientPermissions ∧
    UsersService.get_user_by_id sampleDB alice.id bob
        = UsersService.get_user_by_id ⟨[], []⟩ alice.id bob ∧
    UsersService.get_user_by_id sampleDB 999 carolAdmin = .error .notFound := by
  refine ⟨?_, ?_, ?_⟩
  · exact ((C10_profile_read_policy sampleDB ⟨[], []⟩ sampleDB alice.id bob).1
      (by decide) rfl).1
  · exact ((C10_profile_read_policy sampleDB ⟨[], []⟩ sampleDB alice.id bob).1
      (by decide) rfl).2
  · exact (C10_profile_read_policy sampleDB ⟨[], []⟩ sampleDB 999 carolAdmin).2
      (Or.inr rfl) rfl

end FastapiClean
